import Mathlib

/-! observe-go: the tracing facade of `observatory.go`

A shallow embedding of `src/observatory.go`.  The facade delegates every piece of real
work to collaborators that live outside the repository (the OpenTracing API, the Jaeger
configuration package, `io.Closer`, `log`).  Those collaborators are modelled as
deterministic oracles: each one answers as an arbitrary function of the history of
collaborator calls made so far, and every call the facade makes is appended to that
history.  Theorems quantify over all oracles, so nothing is assumed about a concrete
tracer implementation.

Go interface values can be nil; they are modelled as `Option`.  A method call through a
nil interface value, or a load through a nil pointer, panics; functions that can reach
such a point return `Except Panic`.
-/

namespace observe

/-! ## Collaborator types (OpenTracing, Jaeger configuration, io, context) -/

/-- Modelled from the spec: `opentracing.SpanContext`, the trace context of a span.  The
facade never looks inside one, so it is an opaque token. -/
structure SpanContext where
  token : Nat
deriving DecidableEq, Repr

/-- Modelled from the spec: a non-nil `opentracing.Span`.  The facade observes a span only
through its identity and through `Span.Context()`. -/
structure Span where
  ident : Nat
  Context : SpanContext
deriving DecidableEq, Repr

/-- Modelled from the spec: `opentracing.SpanReferenceType`. -/
inductive SpanReferenceType where
  | ChildOfRef
  | FollowsFromRef
deriving DecidableEq, Repr

/-- Modelled from the spec: `opentracing.StartSpanOption`, the options a caller may hand
to `Tracer.StartSpan`: span references, tags and an explicit start time. -/
inductive StartSpanOption where
  | SpanReference (type : SpanReferenceType) (referencedContext : SpanContext)
  | Tag (key : String) (value : String)
  | StartTime (t : Nat)
deriving DecidableEq, Repr

/-- Modelled from the spec: `opentracing.ChildOf(sc)`, the child-of reference to `sc`. -/
def ChildOf (sc : SpanContext) : StartSpanOption :=
  StartSpanOption.SpanReference SpanReferenceType.ChildOfRef sc

/-- Modelled from the spec: `jaegercfg.Configuration`, restricted to the categories the
spec names (service identity, sampling strategy and parameter, reporter endpoint).  The
zero value is the one `new(defaultObservatory)` leaves in the `config` field. -/
structure Configuration where
  ServiceName : String := ""
  Disabled : Bool := false
  SamplerType : String := ""
  SamplerParam : String := ""
  ReporterEndpoint : String := ""
deriving DecidableEq, Repr

/-- One call made to a collaborator.  `tracer` and `closer` are the handles of the
receiver the call went to. -/
inductive Call where
  | FromEnv
  | NewTracer (config : Configuration)
  | StartSpan (tracer : Nat) (operationName : String) (opts : List StartSpanOption)
  | Close (closer : Nat)
  | Printf (msg : String)
deriving DecidableEq, Repr

/-- The history of collaborator calls, oldest first. -/
abbrev Log := List Call

/-- Modelled from the spec: a non-nil `opentracing.Tracer`.  `StartSpan` answers from the
history so far, the operation name and the options; the answer may be a nil span. -/
structure Tracer where
  handle : Nat
  StartSpan : Log → String → List StartSpanOption → Option Span

/-- Modelled from the spec: a non-nil `io.Closer`; `Close` answers with an error message
or with nil. -/
structure Closer where
  handle : Nat
  Close : Log → Option String

/-- Modelled from the spec: the `jaegercfg` package in the current process environment.
`FromEnv` answers with a configuration pointer and an error, `NewTracer` with a tracer,
a closer and an error; any of them may be nil. -/
structure Jaeger where
  FromEnv : Log → Option Configuration × Option String
  NewTracer : Configuration → Log → Option Tracer × Option Closer × Option String

/-- Modelled from the spec: `context.Context` as the chain of values it carries.
`WithSpan parent span` is `context.WithValue(parent, activeSpanKey, span)`, the only way
the unexported OpenTracing key is ever bound; `WithValue` binds any other key. -/
inductive Context where
  | Background
  | WithSpan (parent : Context) (span : Option Span)
  | WithValue (parent : Context) (key : String) (val : String)
deriving DecidableEq, Repr

/-- Modelled from the spec: `opentracing.SpanFromContext`: the value bound nearest to the
leaf under the OpenTracing key, nil when there is none or when the bound value is nil. -/
def SpanFromContext : Context → Option Span
  | Context.Background => none
  | Context.WithSpan _ span => span
  | Context.WithValue parent _ _ => SpanFromContext parent

/-- Modelled from the spec: `opentracing.ContextWithSpan`: a derived context, the caller's
context is not mutated. -/
def ContextWithSpan (ctx : Context) (span : Option Span) : Context :=
  Context.WithSpan ctx span

/-- A runtime panic of the Go program. -/
inductive Panic where
  | nilDereference
deriving DecidableEq, Repr

/-! ## The facade (`observatory.go`) -/

/-- The struct `defaultObservatory` (lines 25-29); the default field values are Go's zero
values. -/
structure defaultObservatory where
  tracer : Option Tracer := none
  config : Configuration := {}
  closer : Option Closer := none

/-- Method `Tracer` (lines 31-33). -/
def defaultObservatory.Tracer (o : defaultObservatory) : Option Tracer :=
  o.tracer

/-- Method `Close` (lines 35-39).  It has a pointer receiver, so the receiver after the
call is returned next to the history; the error `closer.Close()` answers with is
dropped. -/
def defaultObservatory.Close (o : defaultObservatory) (w : Log) : defaultObservatory × Log :=
  match o.closer with
  | some closer => (o, w ++ [Call.Close closer.handle])
  | none => (o, w)

/-- Method `StartTrace` (lines 41-43). -/
def defaultObservatory.StartTrace (o : defaultObservatory) (subject : String) (w : Log) :
    Except Panic (Option Span × Log) :=
  match o.tracer with
  | none => Except.error Panic.nilDereference
  | some tracer =>
    Except.ok (tracer.StartSpan w subject [], w ++ [Call.StartSpan tracer.handle subject []])

/-- Method `StartChildTrace` (lines 45-47).  `parent.Context()` is evaluated before the
call to `StartSpan`, so a nil `parent` panics whatever the tracer is. -/
def defaultObservatory.StartChildTrace (o : defaultObservatory) (subject : String)
    (parent : Option Span) (w : Log) : Except Panic (Option Span × Log) :=
  match parent with
  | none => Except.error Panic.nilDereference
  | some parentSpan =>
    match o.tracer with
    | none => Except.error Panic.nilDereference
    | some tracer =>
      Except.ok (tracer.StartSpan w subject [ChildOf parentSpan.Context],
        w ++ [Call.StartSpan tracer.handle subject [ChildOf parentSpan.Context]])

/-- Method `StartTraceFromContext` (lines 49-58). -/
def defaultObservatory.StartTraceFromContext (o : defaultObservatory) (ctx : Context)
    (operationName : String) (opts : List StartSpanOption) (w : Log) :
    Except Panic ((Option Span × Context) × Log) :=
  match SpanFromContext ctx with
  | some parentSpan =>
    let opts := opts ++ [ChildOf parentSpan.Context]
    match o.tracer with
    | none => Except.error Panic.nilDereference
    | some tracer =>
      let span := tracer.StartSpan w operationName opts
      Except.ok ((span, ContextWithSpan ctx span),
        w ++ [Call.StartSpan tracer.handle operationName opts])
  | none =>
    match o.tracer with
    | none => Except.error Panic.nilDereference
    | some tracer =>
      let span := tracer.StartSpan w operationName opts
      Except.ok ((span, ContextWithSpan ctx span),
        w ++ [Call.StartSpan tracer.handle operationName opts])

/-- Function `MakeObservatoryFromEnv` (lines 62-81).  The result is the `Observatory`
interface value, nil-able in Go, hence an `Option`.  `*cfg` panics when `FromEnv` answers
with a nil pointer and a nil error. -/
def MakeObservatoryFromEnv (j : Jaeger) (w : Log) :
    Except Panic (Option defaultObservatory × Log) :=
  let result : defaultObservatory := {}
  let w1 := w ++ [Call.FromEnv]
  match j.FromEnv w with
  | (_, some err) =>
    Except.ok (some result, w1 ++ [Call.Printf ("Could not parse Jaeger env vars: " ++ err)])
  | (none, none) => Except.error Panic.nilDereference
  | (some cfg, none) =>
    let result := { result with config := cfg }
    let w2 := w1 ++ [Call.NewTracer result.config]
    match j.NewTracer result.config w1 with
    | (_, _, some err) =>
      Except.ok (some result,
        w2 ++ [Call.Printf ("Could not initialize jaeger tracer: " ++ err)])
    | (tracer, closer, none) =>
      Except.ok (some { result with tracer := tracer, closer := closer }, w2)

/-! ## Concrete collaborators used to exercise the theorems -/

/-- A tracer that numbers its spans by the length of the history. -/
def countingTracer : Tracer :=
  { handle := 7
    StartSpan := fun w _ _ => some { ident := w.length, Context := { token := 100 + w.length } } }

/-- A closer that always answers with an error. -/
def failingCloser : Closer :=
  { handle := 9, Close := fun _ => some "flush failed" }

/-- A span attached to a context before the facade is called. -/
def carriedSpan : Span :=
  { ident := 41, Context := { token := 42 } }

/-- A facade as `MakeObservatoryFromEnv` builds it on success. -/
def readyObservatory : defaultObservatory :=
  { tracer := some countingTracer, config := { ServiceName := "svc" }, closer := some failingCloser }

/-- An environment whose configuration cannot be parsed; `FromEnv` still hands back a
configuration pointer next to the error. -/
def malformedEnv : Jaeger :=
  { FromEnv := fun _ => (some { ServiceName := "svc" }, some "cannot parse sampler param")
    NewTracer := fun _ _ => (some countingTracer, some failingCloser, none) }

/-- An environment that parses, but whose tracer cannot be built; the builder hands back
a tracer and a closer next to the error. -/
def unbuildableEnv : Jaeger :=
  { FromEnv := fun _ => (some { ServiceName := "svc", SamplerType := "const" }, none)
    NewTracer := fun _ _ => (some countingTracer, some failingCloser, some "no reporter") }

/-- A minimal valid environment. -/
def validEnv : Jaeger :=
  { FromEnv := fun _ =>
      (some { ServiceName := "svc", SamplerType := "const", SamplerParam := "1" }, none)
    NewTracer := fun _ _ => (some countingTracer, some failingCloser, none) }

/-- The one span a no-op tracer hands out. -/
def noopSpan : Span :=
  { ident := 0, Context := { token := 0 } }

/-- A tracer in the manner of `opentracing.NoopTracer`, the tracer Jaeger builds from a
disabled configuration: every `StartSpan` answers with the same span. -/
def noopTracer : Tracer :=
  { handle := 0, StartSpan := fun _ _ _ => some noopSpan }

/-- A facade holding the no-op tracer. -/
def noopObservatory : defaultObservatory :=
  { tracer := some noopTracer, config := { ServiceName := "svc", Disabled := true } }

/-! ## Theorems -/

/-- C2: when the context carries a span `p`, `StartTraceFromContext` makes exactly one
collaborator call, `StartSpan` on the stored tracer, with the operation name and with the
caller's options in their order followed by the single extra option
`ChildOf(p.Context())`. -/
theorem StartTraceFromContext_appends_child_of (o : defaultObservatory) (t : Tracer)
    (ctx : Context) (p : Span) (name : String) (opts : List StartSpanOption) (w : Log)
    (ht : o.tracer = some t) (hp : SpanFromContext ctx = some p) :
    o.StartTraceFromContext ctx name opts w =
      Except.ok
        ((t.StartSpan w name (opts ++ [ChildOf p.Context]),
          ContextWithSpan ctx (t.StartSpan w name (opts ++ [ChildOf p.Context]))),
         w ++ [Call.StartSpan t.handle name (opts ++ [ChildOf p.Context])]) := by
  simp [defaultObservatory.StartTraceFromContext, ht, hp]

/-- Witness for C2 on a context that carries `carriedSpan`, with one caller option. -/
theorem StartTraceFromContext_appends_child_of_witness :
    readyObservatory.StartTraceFromContext
        (Context.WithValue (Context.WithSpan Context.Background (some carriedSpan)) "k" "v")
        "op" [StartSpanOption.Tag "a" "b"] [Call.FromEnv] =
      Except.ok
        ((some { ident := 1, Context := { token := 101 } },
          Context.WithSpan
            (Context.WithValue (Context.WithSpan Context.Background (some carriedSpan)) "k" "v")
            (some { ident := 1, Context := { token := 101 } })),
         [Call.FromEnv,
          Call.StartSpan 7 "op" [StartSpanOption.Tag "a" "b", ChildOf { token := 42 }]]) :=
  StartTraceFromContext_appends_child_of readyObservatory countingTracer
    (Context.WithValue (Context.WithSpan Context.Background (some carriedSpan)) "k" "v")
    carriedSpan "op" [StartSpanOption.Tag "a" "b"] [Call.FromEnv] rfl rfl

/-- C4: when the context carries no span, `StartTraceFromContext` makes exactly one
collaborator call, `StartSpan` on the stored tracer, with the operation name and with the
caller's option list unchanged; with no caller options the list is empty, a root span. -/
theorem StartTraceFromContext_no_parent (o : defaultObservatory) (t : Tracer)
    (ctx : Context) (name : String) (opts : List StartSpanOption) (w : Log)
    (ht : o.tracer = some t) (hp : SpanFromContext ctx = none) :
    o.StartTraceFromContext ctx name opts w =
      Except.ok
        ((t.StartSpan w name opts, ContextWithSpan ctx (t.StartSpan w name opts)),
         w ++ [Call.StartSpan t.handle name opts]) := by
  simp [defaultObservatory.StartTraceFromContext, ht, hp]

/-- Witness for C4 on a context without a span and with no caller options. -/
theorem StartTraceFromContext_no_parent_witness :
    readyObservatory.StartTraceFromContext (Context.WithValue Context.Background "k" "v")
        "op" [] [] =
      Except.ok
        ((some { ident := 0, Context := { token := 100 } },
          Context.WithSpan (Context.WithValue Context.Background "k" "v")
            (some { ident := 0, Context := { token := 100 } })),
         [Call.StartSpan 7 "op" []]) :=
  StartTraceFromContext_no_parent readyObservatory countingTracer
    (Context.WithValue Context.Background "k" "v") "op" [] [] rfl rfl

/-- C1: with a tracer present, `StartTraceFromContext` never panics; it returns the span
that the one `StartSpan` call on the stored tracer answered with, together with
`ContextWithSpan(ctx, span)`, and `SpanFromContext` of the returned context is that span
whatever `ctx` carried before. -/
theorem StartTraceFromContext_returns_span_and_context (o : defaultObservatory) (t : Tracer)
    (ctx : Context) (name : String) (opts : List StartSpanOption) (w : Log)
    (ht : o.tracer = some t) :
    ∃ (span : Option Span) (sent : List StartSpanOption),
      o.StartTraceFromContext ctx name opts w =
        Except.ok ((span, ContextWithSpan ctx span), w ++ [Call.StartSpan t.handle name sent]) ∧
      span = t.StartSpan w name sent ∧
      SpanFromContext (ContextWithSpan ctx span) = span := by
  cases hp : SpanFromContext ctx with
  | none =>
    exact ⟨t.StartSpan w name opts, opts,
      by simp [defaultObservatory.StartTraceFromContext, ht, hp], rfl, rfl⟩
  | some p =>
    exact ⟨t.StartSpan w name (opts ++ [ChildOf p.Context]), opts ++ [ChildOf p.Context],
      by simp [defaultObservatory.StartTraceFromContext, ht, hp], rfl, rfl⟩

/-- Witness for C1 on a context that already carries `carriedSpan`: the carried span is
replaced by the new one. -/
theorem StartTraceFromContext_returns_span_and_context_witness :
    readyObservatory.tracer = some countingTracer ∧
    SpanFromContext (Context.WithSpan Context.Background (some carriedSpan)) = some carriedSpan ∧
    ∃ (span : Option Span) (sent : List StartSpanOption),
      readyObservatory.StartTraceFromContext
          (Context.WithSpan Context.Background (some carriedSpan)) "op" [] [] =
        Except.ok
          ((span, ContextWithSpan (Context.WithSpan Context.Background (some carriedSpan)) span),
           [] ++ [Call.StartSpan countingTracer.handle "op" sent]) ∧
      span = countingTracer.StartSpan [] "op" sent ∧
      SpanFromContext
        (ContextWithSpan (Context.WithSpan Context.Background (some carriedSpan)) span) = span :=
  ⟨rfl, rfl,
    StartTraceFromContext_returns_span_and_context readyObservatory countingTracer
      (Context.WithSpan Context.Background (some carriedSpan)) "op" [] [] rfl⟩

/-- C10: with a tracer present, `StartTrace(subject)` never panics and returns the span
answered by exactly one `StartSpan` call on the stored tracer, made with the label
`subject` and an empty option list (no parent reference). -/
theorem StartTrace_root_span (o : defaultObservatory) (t : Tracer) (subject : String)
    (w : Log) (ht : o.tracer = some t) :
    o.StartTrace subject w =
      Except.ok (t.StartSpan w subject [], w ++ [Call.StartSpan t.handle subject []]) := by
  simp [defaultObservatory.StartTrace, ht]

/-- Witness for C10. -/
theorem StartTrace_root_span_witness :
    readyObservatory.StartTrace "job" [Call.FromEnv] =
      Except.ok (some { ident := 1, Context := { token := 101 } },
        [Call.FromEnv, Call.StartSpan 7 "job" []]) :=
  StartTrace_root_span readyObservatory countingTracer "job" [Call.FromEnv] rfl

/-- C8: with a tracer present and a (non-nil) parent span, `StartChildTrace(subject,
parent)` never panics and returns the span answered by exactly one `StartSpan` call on
the stored tracer, made with the label `subject` and the single option
`ChildOf(parent.Context())`, a child-of reference whose referenced context is
`parent.Context()`. -/
theorem StartChildTrace_child_of_parent (o : defaultObservatory) (t : Tracer)
    (subject : String) (parent : Span) (w : Log) (ht : o.tracer = some t) :
    o.StartChildTrace subject (some parent) w =
        Except.ok (t.StartSpan w subject [ChildOf parent.Context],
          w ++ [Call.StartSpan t.handle subject [ChildOf parent.Context]]) ∧
      ChildOf parent.Context =
        StartSpanOption.SpanReference SpanReferenceType.ChildOfRef parent.Context := by
  simp [defaultObservatory.StartChildTrace, ht, ChildOf]

/-- Witness for C8. -/
theorem StartChildTrace_child_of_parent_witness :
    readyObservatory.StartChildTrace "child" (some carriedSpan) [] =
        Except.ok (some { ident := 0, Context := { token := 100 } },
          [Call.StartSpan 7 "child"
            [StartSpanOption.SpanReference SpanReferenceType.ChildOfRef { token := 42 }]]) ∧
      ChildOf carriedSpan.Context =
        StartSpanOption.SpanReference SpanReferenceType.ChildOfRef { token := 42 } :=
  StartChildTrace_child_of_parent readyObservatory countingTracer "child" carriedSpan [] rfl

/-- C9: `Close` never panics and returns nothing to the caller besides the unchanged
receiver; it makes exactly one collaborator call, `Close` on the stored release handle,
when the handle is present, and no call when it is absent, so any number of `Close` calls
on a facade without a release handle changes nothing. -/
theorem Close_releases_iff_present (o : defaultObservatory) (w : Log) :
    (o.Close w).1 = o ∧
    (∀ c : Closer, o.closer = some c → (o.Close w).2 = w ++ [Call.Close c.handle]) ∧
    (o.closer = none → (o.Close w).2 = w) ∧
    (o.closer = none →
      ∀ n : Nat, (fun s : defaultObservatory × Log => s.1.Close s.2)^[n] (o, w) = (o, w)) := by
  refine ⟨?_, ?_, ?_, ?_⟩
  · unfold defaultObservatory.Close
    cases o.closer <;> rfl
  · intro c hc
    simp [defaultObservatory.Close, hc]
  · intro hc
    simp [defaultObservatory.Close, hc]
  · intro hc n
    induction n with
    | zero => rfl
    | succ k ih =>
      rw [Function.iterate_succ_apply]
      have h1 : (o, w).1.Close (o, w).2 = (o, w) := by
        simp [defaultObservatory.Close, hc]
      rw [h1]
      exact ih

/-- Witness for C9: one call on a facade with a release handle, three calls on a degraded
facade. -/
theorem Close_releases_iff_present_witness :
    (readyObservatory.Close [Call.FromEnv]).2 = [Call.FromEnv, Call.Close 9] ∧
    (fun s : defaultObservatory × Log => s.1.Close s.2)^[3]
        (({} : defaultObservatory), [Call.FromEnv]) = (({} : defaultObservatory), [Call.FromEnv]) :=
  ⟨(Close_releases_iff_present readyObservatory [Call.FromEnv]).2.1 failingCloser rfl,
   (Close_releases_iff_present ({} : defaultObservatory) [Call.FromEnv]).2.2.2 rfl 3⟩

/-- C5: when `jaegercfg.FromEnv` answers with an error, `MakeObservatoryFromEnv` does not
panic and returns a non-nil facade whose tracer and release handle are nil (so `Tracer()`
reports nil); the only collaborator calls are `FromEnv` and the log line, hence no
attempt to build a tracer, and the error is not handed to the caller. -/
theorem MakeObservatoryFromEnv_config_load_failure (j : Jaeger) (w : Log) (err : String)
    (herr : (j.FromEnv w).2 = some err) :
    ∃ o : defaultObservatory,
      MakeObservatoryFromEnv j w =
        Except.ok (some o,
          w ++ [Call.FromEnv, Call.Printf ("Could not parse Jaeger env vars: " ++ err)]) ∧
      o.tracer = none ∧ o.closer = none ∧ o.Tracer = none ∧
      ∀ cfg : Configuration,
        Call.NewTracer cfg ∉
          [Call.FromEnv, Call.Printf ("Could not parse Jaeger env vars: " ++ err)] := by
  refine ⟨{}, ?_, rfl, rfl, rfl, ?_⟩
  · rcases hj : j.FromEnv w with ⟨c, e⟩
    rw [hj] at herr
    simp only at herr
    subst herr
    simp [MakeObservatoryFromEnv, hj]
  · intro cfg
    simp

/-- Witness for C5 on `malformedEnv`, whose builder would have succeeded. -/
theorem MakeObservatoryFromEnv_config_load_failure_witness :
    (malformedEnv.FromEnv []).2 = some "cannot parse sampler param" ∧
    ∃ o : defaultObservatory,
      MakeObservatoryFromEnv malformedEnv [] =
        Except.ok (some o,
          [] ++ [Call.FromEnv,
            Call.Printf ("Could not parse Jaeger env vars: " ++ "cannot parse sampler param")]) ∧
      o.tracer = none ∧ o.closer = none ∧ o.Tracer = none ∧
      ∀ cfg : Configuration,
        Call.NewTracer cfg ∉
          [Call.FromEnv,
            Call.Printf ("Could not parse Jaeger env vars: " ++ "cannot parse sampler param")] :=
  ⟨rfl, MakeObservatoryFromEnv_config_load_failure malformedEnv []
    "cannot parse sampler param" rfl⟩

/-- C6: when `FromEnv` succeeds with configuration `cfg` and `NewTracer` answers with an
error, `MakeObservatoryFromEnv` does not panic and returns a non-nil facade whose stored
configuration is `cfg` and whose tracer and release handle are nil, whatever tracer and
closer values the builder answered with next to the error. -/
theorem MakeObservatoryFromEnv_tracer_build_failure (j : Jaeger) (w : Log)
    (cfg : Configuration) (err : String)
    (hcfg : j.FromEnv w = (some cfg, none))
    (herr : (j.NewTracer cfg (w ++ [Call.FromEnv])).2.2 = some err) :
    ∃ o : defaultObservatory,
      MakeObservatoryFromEnv j w =
        Except.ok (some o,
          w ++ [Call.FromEnv, Call.NewTracer cfg,
            Call.Printf ("Could not initialize jaeger tracer: " ++ err)]) ∧
      o.config = cfg ∧ o.tracer = none ∧ o.closer = none := by
  refine ⟨{ config := cfg }, ?_, rfl, rfl, rfl⟩
  rcases hn : j.NewTracer cfg (w ++ [Call.FromEnv]) with ⟨t, c, e⟩
  rw [hn] at herr
  simp only at herr
  subst herr
  simp [MakeObservatoryFromEnv, hcfg, hn]

/-- Witness for C6 on `unbuildableEnv`, whose builder answers with a tracer and a closer
next to the error. -/
theorem MakeObservatoryFromEnv_tracer_build_failure_witness :
    (unbuildableEnv.NewTracer { ServiceName := "svc", SamplerType := "const" }
        ([] ++ [Call.FromEnv])).1 = some countingTracer ∧
    ∃ o : defaultObservatory,
      MakeObservatoryFromEnv unbuildableEnv [] =
        Except.ok (some o,
          [] ++ [Call.FromEnv, Call.NewTracer { ServiceName := "svc", SamplerType := "const" },
            Call.Printf ("Could not initialize jaeger tracer: " ++ "no reporter")]) ∧
      o.config = { ServiceName := "svc", SamplerType := "const" } ∧
      o.tracer = none ∧ o.closer = none :=
  ⟨rfl, MakeObservatoryFromEnv_tracer_build_failure unbuildableEnv []
    { ServiceName := "svc", SamplerType := "const" } "no reporter" rfl rfl⟩

/-- C7: when `FromEnv` succeeds with `cfg` and `NewTracer` answers `(t, c)` without error,
`MakeObservatoryFromEnv` does not panic and returns a non-nil facade holding exactly `t`
and `c` (and `cfg`), and `Tracer()` on it is `t`; for every facade `Tracer()` is the stored
tracer field. -/
theorem MakeObservatoryFromEnv_success (j : Jaeger) (w : Log) (cfg : Configuration)
    (t : Option Tracer) (c : Option Closer)
    (hcfg : j.FromEnv w = (some cfg, none))
    (hnew : j.NewTracer cfg (w ++ [Call.FromEnv]) = (t, c, none)) :
    (∃ o : defaultObservatory,
      MakeObservatoryFromEnv j w =
        Except.ok (some o, w ++ [Call.FromEnv, Call.NewTracer cfg]) ∧
      o.tracer = t ∧ o.closer = c ∧ o.config = cfg ∧ o.Tracer = t) ∧
    ∀ o : defaultObservatory, o.Tracer = o.tracer := by
  refine ⟨⟨{ tracer := t, config := cfg, closer := c }, ?_, rfl, rfl, rfl, rfl⟩, fun _ => rfl⟩
  simp [MakeObservatoryFromEnv, hcfg, hnew]

/-- Witness for C7 on `validEnv`. -/
theorem MakeObservatoryFromEnv_success_witness :
    (∃ o : defaultObservatory,
      MakeObservatoryFromEnv validEnv [] =
        Except.ok (some o,
          [] ++ [Call.FromEnv,
            Call.NewTracer { ServiceName := "svc", SamplerType := "const", SamplerParam := "1" }]) ∧
      o.tracer = some countingTracer ∧ o.closer = some failingCloser ∧
      o.config = { ServiceName := "svc", SamplerType := "const", SamplerParam := "1" } ∧
      o.Tracer = some countingTracer) ∧
    ∀ o : defaultObservatory, o.Tracer = o.tracer :=
  MakeObservatoryFromEnv_success validEnv []
    { ServiceName := "svc", SamplerType := "const", SamplerParam := "1" }
    (some countingTracer) (some failingCloser) rfl rfl

/-- C3, as stated, fails on a tracer that hands out one span for every call.  On a context
that carries `noopSpan`, the first of two sibling calls returns `s1 = noopSpan`, and the
second call, made on the same context, hands `StartSpan` the option list
`[ChildOf(noopSpan.Context())]`, which is `[ChildOf(s1.Context())]`: the second call's
option list does reference the first call's span, so "neither call's option list
references the other's span" does not hold for every tracer. -/
theorem StartTraceFromContext_sibling_references_other_span :
    noopObservatory.StartTraceFromContext
        (Context.WithSpan Context.Background (some noopSpan)) "op1" [] [] =
      Except.ok
        ((some noopSpan,
          Context.WithSpan (Context.WithSpan Context.Background (some noopSpan))
            (some noopSpan)),
         [Call.StartSpan 0 "op1" [ChildOf noopSpan.Context]]) ∧
    noopObservatory.StartTraceFromContext
        (Context.WithSpan Context.Background (some noopSpan)) "op2" []
        [Call.StartSpan 0 "op1" [ChildOf noopSpan.Context]] =
      Except.ok
        ((some noopSpan,
          Context.WithSpan (Context.WithSpan Context.Background (some noopSpan))
            (some noopSpan)),
         [Call.StartSpan 0 "op1" [ChildOf noopSpan.Context],
          Call.StartSpan 0 "op2" [ChildOf noopSpan.Context]]) ∧
    ChildOf noopSpan.Context ∈ [ChildOf noopSpan.Context] ∧
    ¬ ∀ (s1 : Span) (c1 : Context) (w1 : Log) (r2 : Option Span × Context)
        (opts2 : List StartSpanOption),
        noopObservatory.StartTraceFromContext
            (Context.WithSpan Context.Background (some noopSpan)) "op1" [] [] =
          Except.ok ((some s1, c1), w1) →
        noopObservatory.StartTraceFromContext
            (Context.WithSpan Context.Background (some noopSpan)) "op2" [] w1 =
          Except.ok (r2, w1 ++ [Call.StartSpan 0 "op2" opts2]) →
        ChildOf s1.Context ∉ opts2 := by
  refine ⟨rfl, rfl, ?_, ?_⟩
  · simp
  · intro h
    exact h noopSpan
      (Context.WithSpan (Context.WithSpan Context.Background (some noopSpan)) (some noopSpan))
      [Call.StartSpan 0 "op1" [ChildOf noopSpan.Context]]
      (some noopSpan,
        Context.WithSpan (Context.WithSpan Context.Background (some noopSpan)) (some noopSpan))
      [ChildOf noopSpan.Context] rfl rfl (by simp)

/-- C3, amended: nesting and siblings.  Chained: when a first
`StartTraceFromContext(ctx, n1)` returned the span `s1` and the context `c1`, the call
`StartTraceFromContext(c1, n2)` makes exactly one `StartSpan` call and its option list is
`[ChildOf(s1.Context())]`.  Siblings: two calls made on the same `ctx` hand `StartSpan` one
and the same option list, which is empty when `ctx` carries no span and
`[ChildOf(p.Context())]` when `ctx` carries `p`; that list references a span exactly when
`ctx` carries a span with the same trace context. -/
theorem StartTraceFromContext_nesting_and_siblings (o : defaultObservatory) (t : Tracer)
    (ctx : Context) (n1 n2 : String) (w : Log) (ht : o.tracer = some t) :
    (∀ (s1 : Span) (c1 : Context) (w1 : Log),
      o.StartTraceFromContext ctx n1 [] w = Except.ok ((some s1, c1), w1) →
      o.StartTraceFromContext c1 n2 [] w1 =
        Except.ok
          ((t.StartSpan w1 n2 [ChildOf s1.Context],
            ContextWithSpan c1 (t.StartSpan w1 n2 [ChildOf s1.Context])),
           w1 ++ [Call.StartSpan t.handle n2 [ChildOf s1.Context]])) ∧
    (∀ w2 : Log, ∃ parentOpts : List StartSpanOption,
      (SpanFromContext ctx = none ∧ parentOpts = [] ∨
        ∃ p : Span, SpanFromContext ctx = some p ∧ parentOpts = [ChildOf p.Context]) ∧
      o.StartTraceFromContext ctx n1 [] w =
        Except.ok
          ((t.StartSpan w n1 parentOpts, ContextWithSpan ctx (t.StartSpan w n1 parentOpts)),
           w ++ [Call.StartSpan t.handle n1 parentOpts]) ∧
      o.StartTraceFromContext ctx n2 [] w2 =
        Except.ok
          ((t.StartSpan w2 n2 parentOpts, ContextWithSpan ctx (t.StartSpan w2 n2 parentOpts)),
           w2 ++ [Call.StartSpan t.handle n2 parentOpts]) ∧
      ∀ s : Span,
        ChildOf s.Context ∈ parentOpts ↔
          ∃ p : Span, SpanFromContext ctx = some p ∧ s.Context = p.Context) := by
  constructor
  · intro s1 c1 w1 h
    have hc1 : SpanFromContext c1 = some s1 := by
      cases hp : SpanFromContext ctx with
      | none =>
        simp [defaultObservatory.StartTraceFromContext, ht, hp] at h
        rw [← h.1.2, h.1.1]
        rfl
      | some p =>
        simp [defaultObservatory.StartTraceFromContext, ht, hp] at h
        rw [← h.1.2, h.1.1]
        rfl
    simp [defaultObservatory.StartTraceFromContext, ht, hc1]
  · intro w2
    cases hp : SpanFromContext ctx with
    | none =>
      refine ⟨[], Or.inl ⟨rfl, rfl⟩, ?_, ?_, ?_⟩
      · simp [defaultObservatory.StartTraceFromContext, ht, hp]
      · simp [defaultObservatory.StartTraceFromContext, ht, hp]
      · intro s
        simp
    | some p =>
      refine ⟨[ChildOf p.Context], Or.inr ⟨p, rfl, rfl⟩, ?_, ?_, ?_⟩
      · simp [defaultObservatory.StartTraceFromContext, ht, hp]
      · simp [defaultObservatory.StartTraceFromContext, ht, hp]
      · intro s
        constructor
        · intro hmem
          refine ⟨p, rfl, ?_⟩
          simpa [ChildOf] using hmem
        · rintro ⟨q, hq, hsq⟩
          have hpq : p = q := Option.some.inj hq
          subst hpq
          simp [hsq]

/-- Witness for the amended C3.  Chained part: the second call, made on the context the
first call returned, hands `StartSpan` the child-of reference to the first span.  Sibling
part: on a context carrying `carriedSpan`, both calls hand `StartSpan` the list
`[ChildOf(carriedSpan.Context())]`, which references neither span `countingTracer`
answered with. -/
theorem StartTraceFromContext_nesting_and_siblings_witness :
    readyObservatory.StartTraceFromContext Context.Background "op1" [] [] =
      Except.ok
        ((some { ident := 0, Context := { token := 100 } },
          Context.WithSpan Context.Background (some { ident := 0, Context := { token := 100 } })),
         [Call.StartSpan 7 "op1" []]) ∧
    readyObservatory.StartTraceFromContext
        (Context.WithSpan Context.Background (some { ident := 0, Context := { token := 100 } }))
        "op2" [] [Call.StartSpan 7 "op1" []] =
      Except.ok
        ((countingTracer.StartSpan [Call.StartSpan 7 "op1" []] "op2"
            [ChildOf (Span.mk 0 { token := 100 }).Context],
          ContextWithSpan
            (Context.WithSpan Context.Background
              (some { ident := 0, Context := { token := 100 } }))
            (countingTracer.StartSpan [Call.StartSpan 7 "op1" []] "op2"
              [ChildOf (Span.mk 0 { token := 100 }).Context])),
         [Call.StartSpan 7 "op1" []] ++
           [Call.StartSpan countingTracer.handle "op2"
             [ChildOf (Span.mk 0 { token := 100 }).Context]]) ∧
    (ChildOf (Span.mk 0 { token := 100 }).Context ∉ [ChildOf carriedSpan.Context] ∧
      ChildOf (Span.mk 1 { token := 101 }).Context ∉ [ChildOf carriedSpan.Context]) :=
  ⟨rfl,
   (StartTraceFromContext_nesting_and_siblings readyObservatory countingTracer
      Context.Background "op1" "op2" [] rfl).1
      { ident := 0, Context := { token := 100 } }
      (Context.WithSpan Context.Background (some { ident := 0, Context := { token := 100 } }))
      [Call.StartSpan 7 "op1" []] rfl,
   by
    obtain ⟨parentOpts, hopts, _, _, href⟩ :=
      (StartTraceFromContext_nesting_and_siblings readyObservatory countingTracer
        (Context.WithSpan Context.Background (some carriedSpan)) "op1" "op2" [] rfl).2
        [Call.StartSpan 7 "op1" [ChildOf carriedSpan.Context]]
    rcases hopts with ⟨hnone, _⟩ | ⟨p, hp, hpo⟩
    · simp [SpanFromContext] at hnone
    · have hpc : carriedSpan = p := by simpa [SpanFromContext] using hp
      subst hpc
      subst hpo
      constructor
      · intro hmem
        obtain ⟨q, hq, hsq⟩ := (href (Span.mk 0 { token := 100 })).1 hmem
        have hqc : carriedSpan = q := by simpa [SpanFromContext] using hq
        subst hqc
        exact absurd hsq (by decide)
      · intro hmem
        obtain ⟨q, hq, hsq⟩ := (href (Span.mk 1 { token := 101 })).1 hmem
        have hqc : carriedSpan = q := by simpa [SpanFromContext] using hq
        subst hqc
        exact absurd hsq (by decide)⟩

end observe
